import Mathlib

/-!
Shallow embedding of `src/index.js` (dynamodb-local): a process-lifecycle
manager for a locally run DynamoDB emulator.  The JavaScript module keeps a
process-wide registry of running child processes keyed by port, a mutable
installer configuration, and exposes `launch`, `stop`, `stopChild`,
`relaunch`, `configureInstaller`.

Modelling decisions:
* JavaScript values that flow into the subprocess argument list are modelled
  by `JSVal` (strings and numbers, plus `undef`), with JS truthiness made
  explicit by `truthy`.
* The outside world (filesystem probes, HTTP status of the configured
  download URL, pids handed out by `spawn`) is an oracle `World`.
* Mutable module state (`Config`, `runningProcesses`) is an explicit
  `DDBState` threaded through the operations; observable side effects
  (mkdir, HTTP GET, extraction, spawn, kill, exit-hook registration) are
  recorded in a trace of `Effect`s.
* The source's `Promise.reject(...)` calls inside plain callbacks reject a
  fresh promise that nothing awaits; those unobserved rejections are
  recorded separately as `Orphan`s, while the awaited result of
  `installDynamoDbLocal` resolves exactly as the JavaScript control flow
  does.
* `additionalArgs.push(...)` mutates the caller's own array whenever the
  caller passed an array (the normalization step reassigns the variable
  only in the non-array branches); `LaunchResult.callerArrayAfter` records
  the contents of the caller's array after the call when it was aliased.
-/

/-- A JavaScript value as it appears in the argument list: a string, a
number (the port), or `undefined`. -/
inductive JSVal where
  | str : String → JSVal
  | num : Nat → JSVal
  | undef : JSVal
deriving DecidableEq, Repr

/-- JavaScript truthiness for the values we model: the empty string, `0`
and `undefined` are falsy. -/
def truthy : JSVal → Bool
  | JSVal.str s => if s = "" then false else true
  | JSVal.num n => if n = 0 then false else true
  | JSVal.undef => false

/-- The `additionalArgs` parameter as a caller can pass it: absent/falsy,
a single non-array value, or an array. -/
inductive JSArg where
  | undef : JSArg
  | single : JSVal → JSArg
  | array : List JSVal → JSArg
deriving DecidableEq, Repr

/-- Lines 36-40 of `src/index.js`:
`if (!additionalArgs) additionalArgs = [];`
`else if (!Array.isArray(additionalArgs)) additionalArgs = [additionalArgs];`
The boolean records whether the resulting list is still the caller's own
array object (aliasing is kept exactly when the caller passed an array,
since arrays are always truthy and only the other branches reassign). -/
def normalizeAdditionalArgs : JSArg → Bool × List JSVal
  | JSArg.undef => (false, [])
  | JSArg.single v => if truthy v then (false, [v]) else (false, [])
  | JSArg.array l => (true, l)

/-- Lines 42-46 of `src/index.js`:
`if (!dbPath) additionalArgs.push('-inMemory');`
`else additionalArgs.push('-dbPath', dbPath);`
`dbPath` is a string option; the empty string is falsy. -/
def appendDbPathArgs (dbPath : Option String) (l : List JSVal) : List JSVal :=
  match dbPath with
  | none => l ++ [JSVal.str "-inMemory"]
  | some s => if s = "" then l ++ [JSVal.str "-inMemory"]
              else l ++ [JSVal.str "-dbPath", JSVal.str s]

/-- The `JARNAME` constant of `src/index.js`. -/
def JARNAME : String := "DynamoDBLocal.jar"

/-- The mutable installer configuration (`Config` object of the module). -/
structure Config where
  installPath : String
  downloadUrl : String
deriving DecidableEq, Repr

/-- The built-in defaults of the `Config` object (`os.tmpdir()` joined with
`dynamodb-local`, and the public distribution URL). -/
def defaultConfig : Config :=
  { installPath := "/tmp/dynamodb-local"
    downloadUrl := "https://s3-us-west-2.amazonaws.com/dynamodb-local/dynamodb_local_latest.tar.gz" }

/-- Model of `path.join` as used by the module. -/
def pathJoin (a b : String) : String := a ++ "/" ++ b

/-- A spawned child process handle.  `pid` is the identifier reported by
the OS (`0` models a missing/falsy pid); `hid` is the object identity of
the handle (spawn sequence number), used to tell distinct spawns apart. -/
structure Handle where
  pid : Nat
  hid : Nat
deriving DecidableEq, Repr

/-- Observable side effects performed by the module. -/
inductive Effect where
  | mkdir : String → Effect
  | httpGet : String → Effect
  | readLocalFile : String → Effect
  | extract : String → Effect
  | spawn : List JSVal → String → Effect
  | kill : Nat → String → Effect
  | registerExitHook : Nat → Effect
deriving DecidableEq, Repr

/-- Effects belonging to the install step (directory creation, network
fetch, local archive read, extraction). -/
def Effect.isInstallStep : Effect → Bool
  | Effect.mkdir _ => true
  | Effect.httpGet _ => true
  | Effect.readLocalFile _ => true
  | Effect.extract _ => true
  | _ => false

/-- A rejection produced by `Promise.reject(...)` inside a plain callback:
it rejects a fresh promise that nothing awaits, so it never reaches the
caller of `installDynamoDbLocal`. -/
inductive Orphan where
  | httpStatusError : Nat → String → Orphan
  | streamErr : Orphan
deriving DecidableEq, Repr

/-- The oracle for the outside world: filesystem probes, the HTTP status
(and redirect-location header) returned by a GET of the configured
download URL, whether `fs.mkdirSync` throws, whether the decompression or
extraction stream errors, and the pid handed out by the n-th `spawn`
(`0` models a spawn that yields no pid). -/
structure World where
  fileExists : String → Bool
  mkdirFails : Bool
  httpStatus : Nat
  httpLocation : String
  streamError : Bool
  spawnPid : Nat → Nat

/-- The mutable module state: the `Config` object, the `runningProcesses`
registry (port → handle) and the spawn sequence counter that hands out
handle identities. -/
structure DDBState where
  config : Config
  running : Nat → Option Handle
  spawnCount : Nat

/-- The awaited outcome of `installDynamoDbLocal`: it rejects only when
`fs.mkdirSync` throws; every other failure is signalled on an orphan
promise and the awaited result still resolves. -/
inductive InstallOutcome where
  | ok : InstallOutcome
  | mkdirError : InstallOutcome
deriving DecidableEq, Repr

/-- Result of the install step: the awaited outcome, the effect trace, and
the unobserved rejections. -/
structure InstallRes where
  outcome : InstallOutcome
  effects : List Effect
  orphans : List Orphan
deriving Repr

/-- Model of `installDynamoDbLocal` (lines 123-172 of `src/index.js`):
* if `<installPath>/DynamoDBLocal.jar` exists, return at once (no effect);
* otherwise create the install directory when missing (a throwing
  `mkdirSync` rejects the awaited promise);
* if `downloadUrl` exists as a local path, stream-read and extract it;
* otherwise `https.get(downloadUrl)`: a non-200 status calls
  `Promise.reject` on a fresh promise carrying the status code and the
  redirect-location header (an `Orphan`), and the body is piped to
  gunzip/tar regardless; stream errors likewise only reject orphans.
The async function itself resolves as soon as the streams are set up. -/
def installDynamoDbLocal (w : World) (c : Config) : InstallRes :=
  if w.fileExists (pathJoin c.installPath JARNAME) then
    { outcome := InstallOutcome.ok, effects := [], orphans := [] }
  else
    let dirEffects := if w.fileExists c.installPath then [] else [Effect.mkdir c.installPath]
    if !w.fileExists c.installPath && w.mkdirFails then
      { outcome := InstallOutcome.mkdirError, effects := dirEffects, orphans := [] }
    else if w.fileExists c.downloadUrl then
      { outcome := InstallOutcome.ok
        effects := dirEffects ++ [Effect.readLocalFile c.downloadUrl, Effect.extract c.installPath]
        orphans := if w.streamError then [Orphan.streamErr] else [] }
    else
      { outcome := InstallOutcome.ok
        effects := dirEffects ++ [Effect.httpGet c.downloadUrl, Effect.extract c.installPath]
        orphans :=
          (if w.httpStatus = 200 then []
           else [Orphan.httpStatusError w.httpStatus w.httpLocation]) ++
          (if w.streamError then [Orphan.streamErr] else []) }

/-- Lines 50-59 of `src/index.js`: the fixed seven-entry head
`['-Xrs', '-Djava.library.path=./DynamoDBLocal_lib', javaOpts, '-jar',
JARNAME, '-port', port]` is filtered by truthiness (`filter(arg => !!arg)`),
then the normalized additional arguments are concatenated unfiltered. -/
def buildArgs (javaOpts : String) (port : Nat) (additionalArgs : List JSVal) : List JSVal :=
  (List.filter (fun a => truthy a)
    [JSVal.str "-Xrs", JSVal.str "-Djava.library.path=./DynamoDBLocal_lib",
     JSVal.str javaOpts, JSVal.str "-jar", JSVal.str JARNAME,
     JSVal.str "-port", JSVal.num port]) ++ additionalArgs

/-- Result of a `launch` (or `relaunch`) call: the awaited result (a handle
or a raised error message), the module state afterwards, the effect trace,
the orphan rejections, and the contents of the caller's `additionalArgs`
array after the call when the call mutated it in place (`none` when the
caller's array was not aliased or the call returned before normalizing). -/
structure LaunchResult where
  res : Except String Handle
  state : DDBState
  effects : List Effect
  orphans : List Orphan
  callerArrayAfter : Option (List JSVal)

/-- The body of `launch` once the registry short-circuit did not fire
(lines 36-93 of `src/index.js`): normalize and mutate `additionalArgs`,
await the install step, build the argument list, spawn `java` with cwd =
`Config.installPath`, fail when no pid was obtained, optionally register
the host-exit kill hook, record the child in the registry. -/
def launchFresh (w : World) (s : DDBState) (port : Nat) (dbPath : Option String)
    (additionalArgs : JSArg) (detached : Bool) (javaOpts : String) : LaunchResult :=
  let na := normalizeAdditionalArgs additionalArgs
  let norm := appendDbPathArgs dbPath na.2
  let callerAfter := if na.1 then some norm else none
  let inst := installDynamoDbLocal w s.config
  match inst.outcome with
  | InstallOutcome.mkdirError =>
      { res := Except.error "install failed: mkdir"
        state := s
        effects := inst.effects
        orphans := inst.orphans
        callerArrayAfter := callerAfter }
  | InstallOutcome.ok =>
      let args := buildArgs javaOpts port norm
      let pid := w.spawnPid s.spawnCount
      if pid = 0 then
        { res := Except.error "Unable to launch DynamoDBLocal process"
          state := { s with spawnCount := s.spawnCount + 1 }
          effects := inst.effects ++ [Effect.spawn args s.config.installPath]
          orphans := inst.orphans
          callerArrayAfter := callerAfter }
      else
        let child : Handle := { pid := pid, hid := s.spawnCount }
        { res := Except.ok child
          state := { config := s.config
                     running := fun q => if q = port then some child else s.running q
                     spawnCount := s.spawnCount + 1 }
          effects := inst.effects ++ [Effect.spawn args s.config.installPath] ++
                     (if detached then [] else [Effect.registerExitHook child.hid])
          orphans := inst.orphans
          callerArrayAfter := callerAfter }

/-- Model of `launch` (lines 31-94 of `src/index.js`): if the registry already holds
an entry for `port`, return it immediately (no install, no spawn, no
mutation of `additionalArgs`); otherwise run the fresh-launch body.
`verbose` only controls debug logging and is not observable here. -/
def launch (w : World) (s : DDBState) (port : Nat) (dbPath : Option String)
    (additionalArgs : JSArg) (verbose : Bool) (detached : Bool) (javaOpts : String) :
    LaunchResult :=
  match s.running port with
  | some h =>
      { res := Except.ok h, state := s, effects := [], orphans := [],
        callerArrayAfter := none }
  | none => launchFresh w s port dbPath additionalArgs detached javaOpts

/-- Model of `stop` (lines 95-100 of `src/index.js`): if the registry holds an entry
for `port`, send it `SIGKILL` and delete the entry; otherwise do nothing.
It never waits for the process to die and never raises. -/
def stop (s : DDBState) (port : Nat) : DDBState × List Effect :=
  match s.running port with
  | some h =>
      ({ s with running := fun q => if q = port then none else s.running q },
       [Effect.kill h.pid "SIGKILL"])
  | none => (s, [])

/-- Model of `stopChild` (lines 101-106 of `src/index.js`): send the default
termination signal to an arbitrary handle when it has a valid pid. -/
def stopChild (child : Handle) : List Effect :=
  if child.pid = 0 then [] else [Effect.kill child.pid "SIGTERM"]

/-- Model of `relaunch` (lines 107-110 of `src/index.js`): `this.stop(port)` then
`await this.launch(port, ...args)`. -/
def relaunch (w : World) (s : DDBState) (port : Nat) (dbPath : Option String)
    (additionalArgs : JSArg) (verbose : Bool) (detached : Bool) (javaOpts : String) :
    LaunchResult :=
  let sp := stop s port
  let r := launch w sp.1 port dbPath additionalArgs verbose detached javaOpts
  { r with effects := sp.2 ++ r.effects }

/-- The argument object of `configureInstaller`; a field is `none` when
absent. -/
structure InstallerConf where
  installPath : Option String
  downloadUrl : Option String
deriving DecidableEq, Repr

/-- Model of `configureInstaller` (lines 111-118 of `src/index.js`):
`if (conf.installPath) Config.installPath = conf.installPath;` and likewise
for `downloadUrl` — a truthiness test, so an absent or empty-string field
leaves the existing value.  The registry and spawn counter are untouched. -/
def configureInstaller (conf : InstallerConf) (s : DDBState) : DDBState :=
  let c1 :=
    match conf.installPath with
    | some ip => if ip = "" then s.config else { s.config with installPath := ip }
    | none => s.config
  let c2 :=
    match conf.downloadUrl with
    | some du => if du = "" then c1 else { c1 with downloadUrl := du }
    | none => c1
  { s with config := c2 }

/-- Every handle stored in the registry was created by an earlier spawn,
so its identity is below the spawn counter.  Holds for the initial state
and is preserved by every operation. -/
def registryFresh (s : DDBState) : Prop :=
  ∀ q h, s.running q = some h → h.hid < s.spawnCount

/-- The initial module state: default configuration, empty registry. -/
def s0 : DDBState :=
  { config := defaultConfig, running := fun _ => none, spawnCount := 0 }

/-- A world where every filesystem probe succeeds (in particular the jar is
already installed), nothing fails, and spawns yield pid 41. -/
def wAllFiles : World :=
  { fileExists := fun _ => true, mkdirFails := false, httpStatus := 200,
    httpLocation := "", streamError := false, spawnPid := fun _ => 41 }

/-- A world with an empty filesystem whose HTTP GET of the download URL
answers status 404; spawns yield pid 42. -/
def wHttp404 : World :=
  { fileExists := fun _ => false, mkdirFails := false, httpStatus := 404,
    httpLocation := "", streamError := false, spawnPid := fun _ => 42 }

/-- A world where the jar is installed but `spawn` yields no pid. -/
def wNoPid : World :=
  { fileExists := fun _ => true, mkdirFails := false, httpStatus := 200,
    httpLocation := "", streamError := false, spawnPid := fun _ => 0 }

/-- A state with one tracked process, pid 7, on port 9. -/
def sRun9 : DDBState :=
  { config := defaultConfig
    running := fun q => if q = 9 then some { pid := 7, hid := 0 } else none
    spawnCount := 1 }

/-- A state whose configuration has been customised to `/old` and `u`. -/
def sOld : DDBState :=
  { config := { installPath := "/old", downloadUrl := "u" }
    running := fun _ => none, spawnCount := 0 }

/-- The registry short-circuit of `launch`: an existing entry is returned
as-is, with no state change, no effect, and no mutation of the caller's
array. -/
lemma launch_of_some (w : World) (s : DDBState) (p : Nat) (d : Option String) (a : JSArg)
    (v dt : Bool) (j : String) (hd : Handle) (h : s.running p = some hd) :
    launch w s p d a v dt j =
      { res := Except.ok hd, state := s, effects := [], orphans := [],
        callerArrayAfter := none } := by
  unfold launch
  rw [h]

/-- With no registry entry for the port, `launch` runs the fresh-launch
body. -/
lemma launch_of_none (w : World) (s : DDBState) (p : Nat) (d : Option String) (a : JSArg)
    (v dt : Bool) (j : String) (h : s.running p = none) :
    launch w s p d a v dt j = launchFresh w s p d a dt j := by
  unfold launch
  rw [h]

/-- Successful fresh launch, spelled out: install resolved and the spawn
yielded a pid, so the child is registered under the port and returned. -/
lemma launchFresh_ok (w : World) (s : DDBState) (p : Nat) (d : Option String) (a : JSArg)
    (dt : Bool) (j : String)
    (hinst : (installDynamoDbLocal w s.config).outcome = InstallOutcome.ok)
    (hpid : w.spawnPid s.spawnCount ≠ 0) :
    launchFresh w s p d a dt j =
      { res := Except.ok { pid := w.spawnPid s.spawnCount, hid := s.spawnCount }
        state := { config := s.config
                   running := fun q => if q = p then
                       some { pid := w.spawnPid s.spawnCount, hid := s.spawnCount }
                     else s.running q
                   spawnCount := s.spawnCount + 1 }
        effects := (installDynamoDbLocal w s.config).effects ++
          [Effect.spawn (buildArgs j p (appendDbPathArgs d (normalizeAdditionalArgs a).2))
            s.config.installPath] ++
          (if dt then [] else [Effect.registerExitHook s.spawnCount])
        orphans := (installDynamoDbLocal w s.config).orphans
        callerArrayAfter :=
          if (normalizeAdditionalArgs a).1 then
            some (appendDbPathArgs d (normalizeAdditionalArgs a).2)
          else none } := by
  unfold launchFresh
  simp only [hinst]
  simp [hpid]

/-- Fresh launch whose spawn yielded no pid: the explicit error is raised
and the registry is left alone. -/
lemma launchFresh_nopid (w : World) (s : DDBState) (p : Nat) (d : Option String) (a : JSArg)
    (dt : Bool) (j : String)
    (hinst : (installDynamoDbLocal w s.config).outcome = InstallOutcome.ok)
    (hpid : w.spawnPid s.spawnCount = 0) :
    launchFresh w s p d a dt j =
      { res := Except.error "Unable to launch DynamoDBLocal process"
        state := { s with spawnCount := s.spawnCount + 1 }
        effects := (installDynamoDbLocal w s.config).effects ++
          [Effect.spawn (buildArgs j p (appendDbPathArgs d (normalizeAdditionalArgs a).2))
            s.config.installPath]
        orphans := (installDynamoDbLocal w s.config).orphans
        callerArrayAfter :=
          if (normalizeAdditionalArgs a).1 then
            some (appendDbPathArgs d (normalizeAdditionalArgs a).2)
          else none } := by
  unfold launchFresh
  simp only [hinst]
  simp [hpid]

/-- Fresh launch aborted because `mkdirSync` threw inside the install
step. -/
lemma launchFresh_mkdirError (w : World) (s : DDBState) (p : Nat) (d : Option String)
    (a : JSArg) (dt : Bool) (j : String)
    (hinst : (installDynamoDbLocal w s.config).outcome = InstallOutcome.mkdirError) :
    launchFresh w s p d a dt j =
      { res := Except.error "install failed: mkdir"
        state := s
        effects := (installDynamoDbLocal w s.config).effects
        orphans := (installDynamoDbLocal w s.config).orphans
        callerArrayAfter :=
          if (normalizeAdditionalArgs a).1 then
            some (appendDbPathArgs d (normalizeAdditionalArgs a).2)
          else none } := by
  unfold launchFresh
  simp only [hinst]

/-- Whenever the install step resolves, the fresh-launch body emits the
spawn effect with the assembled argument list and cwd = install path. -/
lemma launchFresh_spawn_mem (w : World) (s : DDBState) (p : Nat) (d : Option String)
    (a : JSArg) (dt : Bool) (j : String)
    (hinst : (installDynamoDbLocal w s.config).outcome = InstallOutcome.ok) :
    Effect.spawn (buildArgs j p (appendDbPathArgs d (normalizeAdditionalArgs a).2))
        s.config.installPath ∈ (launchFresh w s p d a dt j).effects := by
  by_cases hpid : w.spawnPid s.spawnCount = 0
  · rw [launchFresh_nopid w s p d a dt j hinst hpid]
    simp
  · rw [launchFresh_ok w s p d a dt j hinst hpid]
    simp

/-- A launch that returned a handle has that handle registered under its
port. -/
lemma launch_ok_running (w : World) (s : DDBState) (p : Nat) (d : Option String) (a : JSArg)
    (v dt : Bool) (j : String) (h : Handle)
    (hres : (launch w s p d a v dt j).res = Except.ok h) :
    (launch w s p d a v dt j).state.running p = some h := by
  cases hr : s.running p with
  | some hd =>
      rw [launch_of_some w s p d a v dt j hd hr] at hres ⊢
      simp at hres
      simp [hr, hres]
  | none =>
      rw [launch_of_none w s p d a v dt j hr] at hres ⊢
      cases hi : (installDynamoDbLocal w s.config).outcome with
      | mkdirError => rw [launchFresh_mkdirError w s p d a dt j hi] at hres; simp at hres
      | ok =>
          by_cases hpid : w.spawnPid s.spawnCount = 0
          · rw [launchFresh_nopid w s p d a dt j hi hpid] at hres; simp at hres
          · rw [launchFresh_ok w s p d a dt j hi hpid] at hres ⊢
            simp at hres
            simp [← hres]

/-- A launch that returned a handle keeps the handle identity below the
spawn counter, provided the starting registry did. -/
lemma launch_ok_hid_lt (w : World) (s : DDBState) (p : Nat) (d : Option String) (a : JSArg)
    (v dt : Bool) (j : String) (h : Handle)
    (hfresh : registryFresh s)
    (hres : (launch w s p d a v dt j).res = Except.ok h) :
    h.hid < (launch w s p d a v dt j).state.spawnCount := by
  cases hr : s.running p with
  | some hd =>
      rw [launch_of_some w s p d a v dt j hd hr] at hres ⊢
      simp at hres
      subst hres
      exact hfresh p hd hr
  | none =>
      rw [launch_of_none w s p d a v dt j hr] at hres ⊢
      cases hi : (installDynamoDbLocal w s.config).outcome with
      | mkdirError => rw [launchFresh_mkdirError w s p d a dt j hi] at hres; simp at hres
      | ok =>
          by_cases hpid : w.spawnPid s.spawnCount = 0
          · rw [launchFresh_nopid w s p d a dt j hi hpid] at hres; simp at hres
          · rw [launchFresh_ok w s p d a dt j hi hpid] at hres ⊢
            simp at hres
            simp [← hres]

/-- After `stop`, the port's registry slot is empty. -/
lemma stop_running_self (s : DDBState) (p : Nat) : (stop s p).1.running p = none := by
  unfold stop
  cases hr : s.running p with
  | some hd => simp
  | none => simp [hr]

/-- The `stop` operation never touches the configuration. -/
lemma stop_config (s : DDBState) (p : Nat) : (stop s p).1.config = s.config := by
  unfold stop
  cases hr : s.running p <;> simp

/-- The `stop` operation never touches the spawn counter. -/
lemma stop_spawnCount (s : DDBState) (p : Nat) : (stop s p).1.spawnCount = s.spawnCount := by
  unfold stop
  cases hr : s.running p <;> simp

/-- Unfolding `relaunch`: it is literally `stop` followed by `launch`,
with the kill effect prepended to the launch trace. -/
lemma relaunch_eq (w : World) (s : DDBState) (p : Nat) (d : Option String) (a : JSArg)
    (v dt : Bool) (j : String) :
    relaunch w s p d a v dt j =
      { launch w (stop s p).1 p d a v dt j with
          effects := (stop s p).2 ++ (launch w (stop s p).1 p d a v dt j).effects } := rfl

/-- The assembled argument list, spelled out: the truthiness filter acts on
the fixed seven-entry head only, dropping `javaOpts` when empty (and the
port when falsy); the normalized additional arguments follow unfiltered. -/
lemma buildArgs_eq (j : String) (p : Nat) (l : List JSVal) (hp : p ≠ 0) :
    buildArgs j p l =
      [JSVal.str "-Xrs", JSVal.str "-Djava.library.path=./DynamoDBLocal_lib"] ++
      (if j = "" then [] else [JSVal.str j]) ++
      [JSVal.str "-jar", JSVal.str JARNAME, JSVal.str "-port", JSVal.num p] ++ l := by
  by_cases hj : j = "" <;>
    simp [buildArgs, truthy, hj, hp, JARNAME]

/-- A string distinct from `javaOpts` and from the five fixed strings does
not occur in the filtered head of the argument list. -/
lemma str_not_mem_head (j : String) (p : Nat) (v : String) (hvj : v ≠ j)
    (h1 : v ≠ "-Xrs") (h2 : v ≠ "-Djava.library.path=./DynamoDBLocal_lib")
    (h3 : v ≠ "-jar") (h4 : v ≠ JARNAME) (h5 : v ≠ "-port") :
    JSVal.str v ∉
      List.filter (fun a => truthy a)
        [JSVal.str "-Xrs", JSVal.str "-Djava.library.path=./DynamoDBLocal_lib",
         JSVal.str j, JSVal.str "-jar", JSVal.str JARNAME,
         JSVal.str "-port", JSVal.num p] := by
  intro hmem
  rw [List.mem_filter] at hmem
  have hm := hmem.1
  simp at hm
  rcases hm with h | h | h | h | h | h <;> first
    | exact h1 h | exact h2 h | exact hvj h | exact h3 h | exact h4 h | exact h5 h

/-- Claim C1: the spec demands that a non-200 HTTP status make `launch`
fail with that status and spawn nothing — but in the code the status error
is passed to `Promise.reject` on a fresh promise that nothing awaits, so
with the jar absent and the GET answering 404 the awaited install step
still resolves: `launch` returns a handle, the subprocess is spawned, a
registry entry is created, and the 404 error lives only on an orphan
rejection.  This evaluates the embedded code at that failing input. -/
theorem C1_code_behavior :
    (launch wHttp404 s0 8000 none JSArg.undef false true "").res =
        Except.ok { pid := 42, hid := 0 } ∧
    (launch wHttp404 s0 8000 none JSArg.undef false true "").state.running 8000 =
        some { pid := 42, hid := 0 } ∧
    (launch wHttp404 s0 8000 none JSArg.undef false true "").effects =
      [Effect.mkdir defaultConfig.installPath,
       Effect.httpGet defaultConfig.downloadUrl,
       Effect.extract defaultConfig.installPath,
       Effect.spawn (buildArgs "" 8000 [JSVal.str "-inMemory"]) defaultConfig.installPath] ∧
    (launch wHttp404 s0 8000 none JSArg.undef false true "").orphans =
      [Orphan.httpStatusError 404 ""] :=
  ⟨rfl, rfl, rfl, rfl⟩

/-- Claim C2: once a `launch` has returned a handle, any further `launch`
on the same port (with arbitrary arguments and an arbitrary world) returns
that same handle with the state unchanged and an empty effect trace — so
no second install or spawn happens and the registry keeps a single entry
per port. -/
theorem C2_launch_idempotent (w w2 : World) (s : DDBState) (p : Nat)
    (d d2 : Option String) (a a2 : JSArg) (v v2 dt dt2 : Bool) (j j2 : String) (h : Handle)
    (hfirst : (launch w s p d a v dt j).res = Except.ok h) :
    launch w2 (launch w s p d a v dt j).state p d2 a2 v2 dt2 j2 =
      { res := Except.ok h, state := (launch w s p d a v dt j).state,
        effects := [], orphans := [], callerArrayAfter := none } :=
  launch_of_some w2 _ p d2 a2 v2 dt2 j2 h (launch_ok_running w s p d a v dt j h hfirst)

/-- Witness for C2 at a concrete input: port 8000 from the initial state
in a world where the jar is installed and spawns yield pid 41. -/
theorem C2_witness :
    (launch wAllFiles s0 8000 none JSArg.undef false true "").res =
        Except.ok { pid := 41, hid := 0 } ∧
    launch wAllFiles (launch wAllFiles s0 8000 none JSArg.undef false true "").state
        8000 none JSArg.undef false true "" =
      { res := Except.ok { pid := 41, hid := 0 }
        state := (launch wAllFiles s0 8000 none JSArg.undef false true "").state
        effects := [], orphans := [], callerArrayAfter := none } :=
  ⟨rfl,
   C2_launch_idempotent wAllFiles wAllFiles s0 8000 none none JSArg.undef JSArg.undef
     false false true true "" "" { pid := 41, hid := 0 } rfl⟩

/-- Claim C5: `stop` on an untracked port is a no-op returning no effect;
on a tracked port it sends exactly one `SIGKILL` to the tracked handle,
empties that port's slot, and leaves every other port's slot, the
configuration and the spawn counter unchanged.  It is a total function, so
it never raises, and it emits no waiting of any kind. -/
theorem C5_stop_spec (s : DDBState) (p : Nat) :
    (s.running p = none → stop s p = (s, [])) ∧
    (∀ h, s.running p = some h →
      (stop s p).2 = [Effect.kill h.pid "SIGKILL"] ∧
      (stop s p).1.running p = none ∧
      (∀ q, q ≠ p → (stop s p).1.running q = s.running q) ∧
      (stop s p).1.config = s.config ∧
      (stop s p).1.spawnCount = s.spawnCount) := by
  constructor
  · intro hnone
    unfold stop
    rw [hnone]
  · intro h hsome
    unfold stop
    rw [hsome]
    refine ⟨rfl, by simp, ?_, rfl, rfl⟩
    intro q hq
    simp [hq]

/-- Witness for C5: stopping untracked port 9 in the empty state is a
no-op; stopping tracked port 9 (pid 7) kills it, clears slot 9 and leaves
slot 3 and the configuration alone. -/
theorem C5_stop_witness :
    stop s0 9 = (s0, []) ∧
    (stop sRun9 9).2 = [Effect.kill 7 "SIGKILL"] ∧
    (stop sRun9 9).1.running 9 = none ∧
    (stop sRun9 9).1.running 3 = sRun9.running 3 ∧
    (stop sRun9 9).1.config = sRun9.config :=
  ⟨(C5_stop_spec s0 9).1 rfl,
   ((C5_stop_spec sRun9 9).2 { pid := 7, hid := 0 } rfl).1,
   ((C5_stop_spec sRun9 9).2 { pid := 7, hid := 0 } rfl).2.1,
   ((C5_stop_spec sRun9 9).2 { pid := 7, hid := 0 } rfl).2.2.1 3 (by decide),
   ((C5_stop_spec sRun9 9).2 { pid := 7, hid := 0 } rfl).2.2.2.1⟩

/-- Claim C8: when the registry has no entry for the port, the install
step resolves, and the spawned child carries no pid, `launch` fails with
exactly the error `Unable to launch DynamoDBLocal process` and the whole
registry — in particular the slot for this port — is left unchanged. -/
theorem C8_spawn_no_pid (w : World) (s : DDBState) (p : Nat) (d : Option String)
    (a : JSArg) (v dt : Bool) (j : String)
    (hreg : s.running p = none)
    (hinst : (installDynamoDbLocal w s.config).outcome = InstallOutcome.ok)
    (hpid : w.spawnPid s.spawnCount = 0) :
    (launch w s p d a v dt j).res =
      Except.error "Unable to launch DynamoDBLocal process" ∧
    (launch w s p d a v dt j).state.running = s.running := by
  rw [launch_of_none w s p d a v dt j hreg, launchFresh_nopid w s p d a dt j hinst hpid]
  exact ⟨rfl, rfl⟩

/-- Witness for C8: in a world whose spawns yield no pid, launching port
8000 from the initial state fails with the explicit error and stores
nothing. -/
theorem C8_witness :
    s0.running 8000 = none ∧
    (installDynamoDbLocal wNoPid s0.config).outcome = InstallOutcome.ok ∧
    wNoPid.spawnPid s0.spawnCount = 0 ∧
    (launch wNoPid s0 8000 none JSArg.undef false true "").res =
      Except.error "Unable to launch DynamoDBLocal process" ∧
    (launch wNoPid s0 8000 none JSArg.undef false true "").state.running = s0.running :=
  ⟨rfl, rfl, rfl,
   (C8_spawn_no_pid wNoPid s0 8000 none JSArg.undef false true "" rfl rfl rfl).1,
   (C8_spawn_no_pid wNoPid s0 8000 none JSArg.undef false true "" rfl rfl rfl).2⟩

/-- Claim C7: when `DynamoDBLocal.jar` already exists under the configured
install path, the install step is a no-op success — no mkdir, no HTTP GET,
no local read, no extraction — and consequently the whole `launch` trace
contains no install-step effect (only spawn / exit-hook effects, if any). -/
theorem C7_jar_present_no_fetch (w : World) (s : DDBState) (p : Nat) (d : Option String)
    (a : JSArg) (v dt : Bool) (j : String)
    (hjar : w.fileExists (pathJoin s.config.installPath JARNAME) = true) :
    installDynamoDbLocal w s.config =
      { outcome := InstallOutcome.ok, effects := [], orphans := [] } ∧
    ∀ e ∈ (launch w s p d a v dt j).effects, e.isInstallStep = false := by
  have h1 : installDynamoDbLocal w s.config =
      { outcome := InstallOutcome.ok, effects := [], orphans := [] } := by
    unfold installDynamoDbLocal
    rw [hjar]
    simp
  refine ⟨h1, ?_⟩
  have ho : (installDynamoDbLocal w s.config).outcome = InstallOutcome.ok := by rw [h1]
  cases hr : s.running p with
  | some hd =>
      rw [launch_of_some w s p d a v dt j hd hr]
      simp
  | none =>
      rw [launch_of_none w s p d a v dt j hr]
      by_cases hpid : w.spawnPid s.spawnCount = 0
      · rw [launchFresh_nopid w s p d a dt j ho hpid, h1]
        intro e he
        simp at he
        subst he
        rfl
      · rw [launchFresh_ok w s p d a dt j ho hpid, h1]
        intro e he
        simp at he
        rcases he with he | he
        · subst he; rfl
        · rcases he with ⟨hdt, he⟩
          subst he
          rfl

/-- Witness for C7: with the jar installed, launching port 8000 from the
initial state performs no install-step effect. -/
theorem C7_witness :
    wAllFiles.fileExists (pathJoin s0.config.installPath JARNAME) = true ∧
    installDynamoDbLocal wAllFiles s0.config =
      { outcome := InstallOutcome.ok, effects := [], orphans := [] } ∧
    ∀ e ∈ (launch wAllFiles s0 8000 none JSArg.undef false false "").effects,
      e.isInstallStep = false :=
  ⟨rfl,
   (C7_jar_present_no_fetch wAllFiles s0 8000 none JSArg.undef false false "" rfl).1,
   (C7_jar_present_no_fetch wAllFiles s0 8000 none JSArg.undef false false "" rfl).2⟩

/-- Claim C10: when the caller passes `additionalArgs` as an array and the
port is untracked, `launch` pushes onto that very array before spawning
(and regardless of how install or spawn then fare), so after the call the
caller's own list has grown by `-inMemory` (dbPath falsy) or by
`-dbPath, dbPath` (dbPath set). -/
theorem C10_mutates_caller_array (w : World) (s : DDBState) (p : Nat) (d : Option String)
    (l : List JSVal) (v dt : Bool) (j : String)
    (hreg : s.running p = none) :
    (launch w s p d (JSArg.array l) v dt j).callerArrayAfter =
      some (appendDbPathArgs d l) ∧
    ((d = none ∨ d = some "") → appendDbPathArgs d l = l ++ [JSVal.str "-inMemory"]) ∧
    (∀ s2, d = some s2 → s2 ≠ "" →
      appendDbPathArgs d l = l ++ [JSVal.str "-dbPath", JSVal.str s2]) := by
  refine ⟨?_, ?_, ?_⟩
  · rw [launch_of_none w s p d (JSArg.array l) v dt j hreg]
    cases hi : (installDynamoDbLocal w s.config).outcome with
    | mkdirError =>
        rw [launchFresh_mkdirError w s p d (JSArg.array l) dt j hi]
        simp [normalizeAdditionalArgs]
    | ok =>
        by_cases hpid : w.spawnPid s.spawnCount = 0
        · rw [launchFresh_nopid w s p d (JSArg.array l) dt j hi hpid]
          simp [normalizeAdditionalArgs]
        · rw [launchFresh_ok w s p d (JSArg.array l) dt j hi hpid]
          simp [normalizeAdditionalArgs]
  · rintro (rfl | rfl) <;> simp [appendDbPathArgs]
  · rintro s2 rfl hne
    simp [appendDbPathArgs, hne]

/-- Witness for C10: launching with the caller array `[-sharedDb]` and no
dbPath leaves the caller's array holding `[-sharedDb, -inMemory]`. -/
theorem C10_witness :
    s0.running 8000 = none ∧
    (launch wAllFiles s0 8000 none (JSArg.array [JSVal.str "-sharedDb"])
        false true "").callerArrayAfter =
      some (appendDbPathArgs none [JSVal.str "-sharedDb"]) ∧
    appendDbPathArgs none [JSVal.str "-sharedDb"] =
      [JSVal.str "-sharedDb", JSVal.str "-inMemory"] :=
  ⟨rfl,
   (C10_mutates_caller_array wAllFiles s0 8000 none [JSVal.str "-sharedDb"]
      false true "" rfl).1,
   (C10_mutates_caller_array wAllFiles s0 8000 none [JSVal.str "-sharedDb"]
      false true "" rfl).2.1 (Or.inl rfl)⟩

/-- Claim C6: `relaunch` is literally `stop` followed by `launch` (with the
kill effect prepended to the trace), and after a successful launch on a
port, relaunching that port (install resolving, spawn yielding a pid)
returns a newly spawned handle distinct from the previous one — its
identity is the fresh spawn-counter value, above every handle the registry
could hold. -/
theorem C6_relaunch (w w2 : World) (s : DDBState) (p : Nat) (d d2 : Option String)
    (a a2 : JSArg) (v v2 dt dt2 : Bool) (j j2 : String) (h1 : Handle)
    (hfresh : registryFresh s)
    (hprev : (launch w s p d a v dt j).res = Except.ok h1)
    (hinst : (installDynamoDbLocal w2 (launch w s p d a v dt j).state.config).outcome =
      InstallOutcome.ok)
    (hpid : w2.spawnPid (launch w s p d a v dt j).state.spawnCount ≠ 0) :
    relaunch w2 (launch w s p d a v dt j).state p d2 a2 v2 dt2 j2 =
      { launch w2 (stop (launch w s p d a v dt j).state p).1 p d2 a2 v2 dt2 j2 with
          effects := (stop (launch w s p d a v dt j).state p).2 ++
            (launch w2 (stop (launch w s p d a v dt j).state p).1 p d2 a2 v2 dt2 j2).effects } ∧
    (relaunch w2 (launch w s p d a v dt j).state p d2 a2 v2 dt2 j2).res =
      Except.ok { pid := w2.spawnPid (launch w s p d a v dt j).state.spawnCount
                  hid := (launch w s p d a v dt j).state.spawnCount } ∧
    ({ pid := w2.spawnPid (launch w s p d a v dt j).state.spawnCount
       hid := (launch w s p d a v dt j).state.spawnCount } : Handle) ≠ h1 := by
  have hrun : (stop (launch w s p d a v dt j).state p).1.running p = none :=
    stop_running_self _ p
  have hinst2 : (installDynamoDbLocal w2
      (stop (launch w s p d a v dt j).state p).1.config).outcome = InstallOutcome.ok := by
    rw [stop_config]
    exact hinst
  have hpid2 : w2.spawnPid (stop (launch w s p d a v dt j).state p).1.spawnCount ≠ 0 := by
    rw [stop_spawnCount]
    exact hpid
  refine ⟨relaunch_eq w2 _ p d2 a2 v2 dt2 j2, ?_, ?_⟩
  · have hres : (relaunch w2 (launch w s p d a v dt j).state p d2 a2 v2 dt2 j2).res =
        (launch w2 (stop (launch w s p d a v dt j).state p).1 p d2 a2 v2 dt2 j2).res := rfl
    rw [hres, launch_of_none _ _ _ _ _ _ _ _ hrun,
        launchFresh_ok _ _ _ _ _ _ _ hinst2 hpid2, stop_spawnCount]
  · intro hEq
    have hlt := launch_ok_hid_lt w s p d a v dt j h1 hfresh hprev
    have hhid : h1.hid = (launch w s p d a v dt j).state.spawnCount := by
      rw [← hEq]
    omega

/-- Witness for C6: after launching port 8000 (handle pid 41, identity 0),
relaunching it returns the handle with identity 1 — a different handle. -/
theorem C6_witness :
    (relaunch wAllFiles (launch wAllFiles s0 8000 none JSArg.undef false true "").state
        8000 none JSArg.undef false true "").res =
      Except.ok { pid := 41, hid := 1 } ∧
    ({ pid := 41, hid := 1 } : Handle) ≠ { pid := 41, hid := 0 } :=
  ⟨(C6_relaunch wAllFiles wAllFiles s0 8000 none none JSArg.undef JSArg.undef false false
      true true "" "" { pid := 41, hid := 0 }
      (fun q h hq => by simp [s0] at hq) rfl rfl (by decide)).2.1,
   (C6_relaunch wAllFiles wAllFiles s0 8000 none none JSArg.undef JSArg.undef false false
      true true "" "" { pid := 41, hid := 0 }
      (fun q h hq => by simp [s0] at hq) rfl rfl (by decide)).2.2⟩

/-- Claim C9 counterexample: the claim says a provided `installPath` is
always written, but the code tests truthiness — providing the empty string
leaves the old value `/old` in place instead of overwriting it. -/
theorem C9_counterexample :
    (configureInstaller { installPath := some "", downloadUrl := none } sOld).config.installPath
      = "/old" ∧
    ("/old" : String) ≠ "" :=
  ⟨rfl, by decide⟩

/-- Claim C9 amended: `configureInstaller` overwrites a configuration
field exactly when the corresponding argument field is provided and
truthy (non-empty); an absent or empty field keeps the existing value.
The registry and spawn counter are untouched, and a subsequent install
check probes the jar under the newly set install path. -/
theorem C9_configure_amended (conf : InstallerConf) (s : DDBState) (w : World) :
    (∀ x, conf.installPath = some x → x ≠ "" →
        (configureInstaller conf s).config.installPath = x) ∧
    ((conf.installPath = none ∨ conf.installPath = some "") →
        (configureInstaller conf s).config.installPath = s.config.installPath) ∧
    (∀ u, conf.downloadUrl = some u → u ≠ "" →
        (configureInstaller conf s).config.downloadUrl = u) ∧
    ((conf.downloadUrl = none ∨ conf.downloadUrl = some "") →
        (configureInstaller conf s).config.downloadUrl = s.config.downloadUrl) ∧
    (configureInstaller conf s).running = s.running ∧
    (configureInstaller conf s).spawnCount = s.spawnCount ∧
    (∀ x, conf.installPath = some x → x ≠ "" →
        w.fileExists (pathJoin x JARNAME) = true →
        installDynamoDbLocal w (configureInstaller conf s).config =
          { outcome := InstallOutcome.ok, effects := [], orphans := [] }) := by
  have hip : ∀ x, conf.installPath = some x → x ≠ "" →
      (configureInstaller conf s).config.installPath = x := by
    intro x hx hne
    unfold configureInstaller
    rw [hx]
    cases hdu : conf.downloadUrl with
    | none => simp [hne]
    | some du => by_cases h2 : du = "" <;> simp [hne, h2]
  refine ⟨hip, ?_, ?_, ?_, ?_, ?_, ?_⟩
  · intro hcase
    unfold configureInstaller
    rcases hcase with hx | hx <;> rw [hx] <;>
      cases hdu : conf.downloadUrl with
      | none => simp
      | some du => by_cases h2 : du = "" <;> simp [h2]
  · intro u hu hne
    unfold configureInstaller
    rw [hu]
    cases hix : conf.installPath with
    | none => simp [hne]
    | some ix => by_cases h2 : ix = "" <;> simp [hne, h2]
  · intro hcase
    unfold configureInstaller
    rcases hcase with hu | hu <;> rw [hu] <;>
      cases hix : conf.installPath with
      | none => simp
      | some ix => by_cases h2 : ix = "" <;> simp [h2]
  · unfold configureInstaller
    rfl
  · unfold configureInstaller
    rfl
  · intro x hx hne hjar
    unfold installDynamoDbLocal
    rw [hip x hx hne, hjar]
    simp

/-- Witness for C9: setting `installPath` to `/new` while passing an empty
`downloadUrl` rewrites only the install path, keeps the registry, and the
next install check finds the jar under `/new`. -/
theorem C9_witness :
    (configureInstaller { installPath := some "/new", downloadUrl := some "" }
        sOld).config.installPath = "/new" ∧
    (configureInstaller { installPath := some "/new", downloadUrl := some "" }
        sOld).config.downloadUrl = sOld.config.downloadUrl ∧
    (configureInstaller { installPath := some "/new", downloadUrl := some "" }
        sOld).running = sOld.running ∧
    installDynamoDbLocal wAllFiles
        (configureInstaller { installPath := some "/new", downloadUrl := some "" }
          sOld).config =
      { outcome := InstallOutcome.ok, effects := [], orphans := [] } :=
  ⟨(C9_configure_amended { installPath := some "/new", downloadUrl := some "" } sOld
      wAllFiles).1 "/new" rfl (by decide),
   (C9_configure_amended { installPath := some "/new", downloadUrl := some "" } sOld
      wAllFiles).2.2.2.1 (Or.inr rfl),
   (C9_configure_amended { installPath := some "/new", downloadUrl := some "" } sOld
      wAllFiles).2.2.2.2.1,
   (C9_configure_amended { installPath := some "/new", downloadUrl := some "" } sOld
      wAllFiles).2.2.2.2.2.2 "/new" rfl (by decide) rfl⟩

/-- Claim C3 counterexample: the claim wants every falsy entry filtered out
of the assembled argument list, but the code filters only before
concatenating the additional arguments — a caller-supplied empty string
survives into the spawned list. -/
theorem C3_counterexample :
    (launch wAllFiles s0 8000 none (JSArg.array [JSVal.str ""]) false true "").effects =
      [Effect.spawn [JSVal.str "-Xrs", JSVal.str "-Djava.library.path=./DynamoDBLocal_lib",
        JSVal.str "-jar", JSVal.str "DynamoDBLocal.jar", JSVal.str "-port", JSVal.num 8000,
        JSVal.str "", JSVal.str "-inMemory"] "/tmp/dynamodb-local"] ∧
    truthy (JSVal.str "") = false :=
  ⟨rfl, rfl⟩

/-- Claim C3 amended: for every spawning launch call (untracked port,
install resolving, truthy port), the spawned argument list is exactly
`-Xrs`, the native-library path flag, `javaOpts` when non-empty, `-jar`,
`DynamoDBLocal.jar`, `-port`, the port, followed by the normalized
additional arguments (ending in the in-memory/dbPath flags) — the
truthiness filter acting on the fixed head only, with the additional
arguments appended unfiltered. -/
theorem C3_amended_args (w : World) (s : DDBState) (p : Nat) (d : Option String) (a : JSArg)
    (v dt : Bool) (j : String)
    (hreg : s.running p = none)
    (hinst : (installDynamoDbLocal w s.config).outcome = InstallOutcome.ok)
    (hp : p ≠ 0) :
    Effect.spawn
      ([JSVal.str "-Xrs", JSVal.str "-Djava.library.path=./DynamoDBLocal_lib"] ++
       (if j = "" then [] else [JSVal.str j]) ++
       [JSVal.str "-jar", JSVal.str JARNAME, JSVal.str "-port", JSVal.num p] ++
       appendDbPathArgs d (normalizeAdditionalArgs a).2)
      s.config.installPath ∈ (launch w s p d a v dt j).effects := by
  rw [launch_of_none w s p d a v dt j hreg,
      ← buildArgs_eq j p (appendDbPathArgs d (normalizeAdditionalArgs a).2) hp]
  exact launchFresh_spawn_mem w s p d a dt j hinst

/-- Witness for C3 at a concrete input with non-empty `javaOpts`, a dbPath
and one additional argument. -/
theorem C3_witness :
    s0.running 8000 = none ∧
    Effect.spawn
      ([JSVal.str "-Xrs", JSVal.str "-Djava.library.path=./DynamoDBLocal_lib"] ++
       (if ("-Xmx256m" : String) = "" then [] else [JSVal.str "-Xmx256m"]) ++
       [JSVal.str "-jar", JSVal.str JARNAME, JSVal.str "-port", JSVal.num 8000] ++
       appendDbPathArgs (some "/data")
         (normalizeAdditionalArgs (JSArg.array [JSVal.str "-sharedDb"])).2)
      s0.config.installPath ∈
      (launch wAllFiles s0 8000 (some "/data") (JSArg.array [JSVal.str "-sharedDb"])
        false true "-Xmx256m").effects :=
  ⟨rfl,
   C3_amended_args wAllFiles s0 8000 (some "/data") (JSArg.array [JSVal.str "-sharedDb"])
     false true "-Xmx256m" rfl rfl (by decide)⟩

/-- Claim C4 counterexample: with dbPath unset the claim forbids any
`-dbPath` entry, but a caller-supplied `additionalArgs = ['-dbPath']`
passes straight through, so the assembled list holds both `-dbPath` and
the appended `-inMemory`. -/
theorem C4_counterexample :
    (launch wAllFiles s0 8000 none (JSArg.array [JSVal.str "-dbPath"]) false true "").effects =
      [Effect.spawn [JSVal.str "-Xrs", JSVal.str "-Djava.library.path=./DynamoDBLocal_lib",
        JSVal.str "-jar", JSVal.str "DynamoDBLocal.jar", JSVal.str "-port", JSVal.num 8000,
        JSVal.str "-dbPath", JSVal.str "-inMemory"] "/tmp/dynamodb-local"] ∧
    JSVal.str "-dbPath" ∈
      [JSVal.str "-Xrs", JSVal.str "-Djava.library.path=./DynamoDBLocal_lib",
       JSVal.str "-jar", JSVal.str "DynamoDBLocal.jar", JSVal.str "-port", JSVal.num 8000,
       JSVal.str "-dbPath", JSVal.str "-inMemory"] ∧
    JSVal.str "-inMemory" ∈
      [JSVal.str "-Xrs", JSVal.str "-Djava.library.path=./DynamoDBLocal_lib",
       JSVal.str "-jar", JSVal.str "DynamoDBLocal.jar", JSVal.str "-port", JSVal.num 8000,
       JSVal.str "-dbPath", JSVal.str "-inMemory"] :=
  ⟨rfl, by decide, by decide⟩

/-- Claim C4 amended: provided the caller-supplied inputs do not themselves
carry the flags (`javaOpts` is neither flag, the normalized additional
arguments contain neither, and a set dbPath is not the literal
`-inMemory`), the spawning launch builds a list that, with dbPath falsy,
contains `-inMemory` and no `-dbPath`; and, with dbPath set, ends with
`-dbPath` immediately followed by the dbPath value and contains no
`-inMemory`. -/
theorem C4_amended_flags (w : World) (s : DDBState) (p : Nat) (d : Option String) (a : JSArg)
    (v dt : Bool) (j : String)
    (hreg : s.running p = none)
    (hinst : (installDynamoDbLocal w s.config).outcome = InstallOutcome.ok)
    (hj1 : j ≠ "-inMemory") (hj2 : j ≠ "-dbPath")
    (hn1 : JSVal.str "-inMemory" ∉ (normalizeAdditionalArgs a).2)
    (hn2 : JSVal.str "-dbPath" ∉ (normalizeAdditionalArgs a).2) :
    Effect.spawn (buildArgs j p (appendDbPathArgs d (normalizeAdditionalArgs a).2))
        s.config.installPath ∈ (launch w s p d a v dt j).effects ∧
    ((d = none ∨ d = some "") →
      JSVal.str "-inMemory" ∈ buildArgs j p (appendDbPathArgs d (normalizeAdditionalArgs a).2) ∧
      JSVal.str "-dbPath" ∉ buildArgs j p (appendDbPathArgs d (normalizeAdditionalArgs a).2)) ∧
    (∀ s2, d = some s2 → s2 ≠ "" → s2 ≠ "-inMemory" →
      buildArgs j p (appendDbPathArgs d (normalizeAdditionalArgs a).2) =
        buildArgs j p (normalizeAdditionalArgs a).2 ++
          [JSVal.str "-dbPath", JSVal.str s2] ∧
      JSVal.str "-inMemory" ∉
        buildArgs j p (appendDbPathArgs d (normalizeAdditionalArgs a).2)) := by
  refine ⟨?_, ?_, ?_⟩
  · rw [launch_of_none w s p d a v dt j hreg]
    exact launchFresh_spawn_mem w s p d a dt j hinst
  · intro hcase
    have happ : appendDbPathArgs d (normalizeAdditionalArgs a).2 =
        (normalizeAdditionalArgs a).2 ++ [JSVal.str "-inMemory"] := by
      rcases hcase with rfl | rfl <;> simp [appendDbPathArgs]
    rw [happ]
    constructor
    · simp [buildArgs]
    · intro hmem
      unfold buildArgs at hmem
      rcases List.mem_append.1 hmem with hmem | hmem
      · exact str_not_mem_head j p "-dbPath" (Ne.symm hj2) (by decide) (by decide)
          (by decide) (by decide) (by decide) hmem
      · rcases List.mem_append.1 hmem with hmem | hmem
        · exact hn2 hmem
        · simp at hmem
  · intro s2 hd2 hne hnim
    subst hd2
    have happ : appendDbPathArgs (some s2) (normalizeAdditionalArgs a).2 =
        (normalizeAdditionalArgs a).2 ++ [JSVal.str "-dbPath", JSVal.str s2] := by
      simp [appendDbPathArgs, hne]
    rw [happ]
    constructor
    · unfold buildArgs
      exact (List.append_assoc _ _ _).symm
    · intro hmem
      unfold buildArgs at hmem
      rcases List.mem_append.1 hmem with hmem | hmem
      · exact str_not_mem_head j p "-inMemory" (Ne.symm hj1) (by decide) (by decide)
          (by decide) (by decide) (by decide) hmem
      · rcases List.mem_append.1 hmem with hmem | hmem
        · exact hn1 hmem
        · simp at hmem
          exact hnim hmem.symm

/-- Witness for C4 at a concrete input: dbPath `/data` with additional
argument `-sharedDb` puts `-dbPath /data` at the very end and no
`-inMemory` anywhere. -/
theorem C4_witness :
    Effect.spawn (buildArgs "" 8000 (appendDbPathArgs (some "/data")
        (normalizeAdditionalArgs (JSArg.array [JSVal.str "-sharedDb"])).2))
        s0.config.installPath ∈
      (launch wAllFiles s0 8000 (some "/data") (JSArg.array [JSVal.str "-sharedDb"])
        false true "").effects ∧
    buildArgs "" 8000 (appendDbPathArgs (some "/data")
        (normalizeAdditionalArgs (JSArg.array [JSVal.str "-sharedDb"])).2) =
      buildArgs "" 8000 (normalizeAdditionalArgs (JSArg.array [JSVal.str "-sharedDb"])).2 ++
        [JSVal.str "-dbPath", JSVal.str "/data"] ∧
    JSVal.str "-inMemory" ∉ buildArgs "" 8000 (appendDbPathArgs (some "/data")
        (normalizeAdditionalArgs (JSArg.array [JSVal.str "-sharedDb"])).2) :=
  ⟨(C4_amended_flags wAllFiles s0 8000 (some "/data") (JSArg.array [JSVal.str "-sharedDb"])
      false true "" rfl rfl (by decide) (by decide) (by decide) (by decide)).1,
   ((C4_amended_flags wAllFiles s0 8000 (some "/data") (JSArg.array [JSVal.str "-sharedDb"])
      false true "" rfl rfl (by decide) (by decide) (by decide) (by decide)).2.2
      "/data" rfl (by decide) (by decide)).1,
   ((C4_amended_flags wAllFiles s0 8000 (some "/data") (JSArg.array [JSVal.str "-sharedDb"])
      false true "" rfl rfl (by decide) (by decide) (by decide) (by decide)).2.2
      "/data" rfl (by decide) (by decide)).2⟩
